import Mathlib

/-!
Verification of the validation and authentication core of the SSD-LAB
web application (src/app.py).

The Python handlers and WTForms validator chains are shallowly embedded as
executable Lean functions over `String` (a structure wrapping `List Char`),
with the mutable Flask session and the database made explicit state, and
Python exceptions made `Except` values.  External collaborators (the bcrypt
comparison, the persistence commit outcome) enter as explicit parameters so
that the control flow written in src/app.py is embedded verbatim.
-/

namespace SSDLab

/-! ## Python string primitives (ASCII fragment)

The application only manipulates ASCII-relevant data; `upper`, `lower` and
`strip` are embedded character-wise, matching Python semantics on ASCII. -/

/-- Python `str.upper` (character-wise, ASCII fragment). -/
def pyUpper (s : String) : String := ⟨s.data.map Char.toUpper⟩

/-- Python `str.lower` (character-wise, ASCII fragment). -/
def pyLower (s : String) : String := ⟨s.data.map Char.toLower⟩

/-- Drop leading whitespace characters. -/
def dropWs : List Char → List Char
  | [] => []
  | c :: cs => if c.isWhitespace then dropWs cs else c :: cs

/-- Python `str.strip`: remove leading and trailing whitespace. -/
def pyStrip (s : String) : String := ⟨(dropWs (dropWs s.data.reverse).reverse)⟩

/-! ## Regex word boundaries

`validate_no_sql_injection` (src/app.py:28-38) tests
`re.search(r'\b' + re.escape(keyword) + r'\b', data_upper)` for each
blacklisted keyword.  `\b` matches between a word character
(`[A-Za-z0-9_]` in the ASCII fragment) and a non-word character, with
positions outside the string counting as non-word. -/

/-- Regex word character (ASCII fragment of `\w`). -/
def wordChar (c : Char) : Bool := c.isAlphanum || c == '_'

/-- Whether the first character of a list is a word character
(`false` for the empty list). -/
def headWc (l : List Char) : Bool :=
  match l.head? with
  | some c => wordChar c
  | none => false

/-- Whether the last character of a list is a word character
(`false` for the empty list). -/
def lastWc (l : List Char) : Bool :=
  match l.getLast? with
  | some c => wordChar c
  | none => false

/-- Whether position `i` of `s` holds a word character (out of range:
`false`). -/
def wcAt (s : List Char) (i : Nat) : Bool := headWc (s.drop i)

/-- Regex `\b` at position `i` of `s` (`0 ≤ i ≤ s.length`): the word-ness of
the character before `i` differs from the word-ness of the character at
`i`. -/
def boundaryAt (s : List Char) (i : Nat) : Bool :=
  (if i = 0 then false else wcAt s (i - 1)) != wcAt s i

/-- The literal pattern `k` matches at position `i` of `s` under
`re.search(r'\b' + re.escape(k) + r'\b', s)`: the characters of `k` occur at
`i` with a word boundary on each side. -/
def bMatchAt (s k : List Char) (i : Nat) : Bool :=
  decide ((s.drop i).take k.length = k) && boundaryAt s i
    && boundaryAt s (i + k.length)

/-- `re.search` of the boundary-wrapped literal `k` anywhere in `s`. -/
def bSearch (s k : List Char) : Bool :=
  (List.range (s.length + 1)).any (bMatchAt s k)

/-! ## The custom validators (src/app.py:28-51) -/

/-- Outcome of one WTForms validator applied to a field value:
`pass_`, a collected failure (Python `ValidationError`), or a
chain-stopping failure that clears previously collected messages
(`DataRequired` clears `field.errors` and raises `StopValidation`). -/
inductive RuleOutcome where
  | pass_ : RuleOutcome
  | fail (msg : String) : RuleOutcome
  | stopClear (msg : String) : RuleOutcome
deriving DecidableEq, Repr

/-- The SQL keyword blacklist of `validate_no_sql_injection`
(src/app.py:29-33), verbatim, including the lowercase `xp_` and `sp_`
entries. -/
def sql_keywords : List String :=
  ["SELECT", "INSERT", "UPDATE", "DELETE", "DROP", "CREATE",
   "ALTER", "EXEC", "UNION", "SCRIPT", "--", ";", "/*", "*/",
   "xp_", "sp_", "OR", "AND", "1=1", "1 = 1"]

/-- Whether some blacklisted keyword matches the uppercased value with a
word boundary on each side (the loop body of src/app.py:34-38). -/
def sqlInjectionHit (value : String) : Bool :=
  sql_keywords.any (fun k => bSearch (pyUpper value).data k.data)

/-- Embedding of `validate_no_sql_injection` (src/app.py:28-38): uppercase
the value, search each keyword wrapped in `\b..\b`, raise
`ValidationError('Invalid characters or keywords detected')` on a hit. -/
def validate_no_sql_injection (value : String) : RuleOutcome :=
  if sqlInjectionHit value then
    .fail "Invalid characters or keywords detected"
  else .pass_

/-- The markup blacklist of `validate_no_xss` (src/app.py:41-42),
verbatim. -/
def dangerous_chars : List String :=
  ["<script>", "</script>", "<iframe>", "javascript:",
   "onerror=", "onload=", "<img", "<object>"]

/-- Whether some blacklisted markup substring occurs in the lowercased
value (the loop body of src/app.py:43-46). -/
def xssHit (value : String) : Bool :=
  dangerous_chars.any (fun d => decide (d.data <:+: (pyLower value).data))

/-- Embedding of `validate_no_xss` (src/app.py:40-46): lowercase the value
and test plain substring containment of each blacklisted fragment. -/
def validate_no_xss (value : String) : RuleOutcome :=
  if xssHit value then
    .fail "Invalid HTML or script content detected"
  else .pass_

/-- Character class `[\d\s\-\(\)]` of the phone pattern
(src/app.py:49). -/
def phoneClassChar (c : Char) : Bool :=
  c.isDigit || c.isWhitespace || c == '-' || c == '(' || c == ')'

/-- Python `re.match(r'^\+?[\d\s\-\(\)]{10,20}$', s)`: an optional leading
`+`, then 10 to 20 class characters reaching the end of the string (`$`
also accepts a position just before a single trailing newline). -/
def phoneMatches (s : List Char) : Bool :=
  let r := match s with
    | '+' :: rest => rest
    | other => other
  (decide (10 ≤ r.length) && decide (r.length ≤ 20) && r.all phoneClassChar)
    || (decide (11 ≤ r.length) && decide (r.length ≤ 21)
        && r.getLast? == some '\n' && r.dropLast.all phoneClassChar)

/-- Embedding of `validate_phone` (src/app.py:48-51). -/
def validate_phone (value : String) : RuleOutcome :=
  if phoneMatches value.data then .pass_
  else .fail "Invalid phone number format"

/-! ## WTForms validator chains

WTForms runs a field's validators in order.  A validator failing with
`ValidationError` has its message appended to `field.errors` and the chain
continues; `DataRequired` on failure clears `field.errors` and raises
`StopValidation(message)`, which the chain runner records and then stops
at.  `form.validate` succeeds when every field's error list is empty. -/

/-- wtforms `DataRequired(message=msg)`: passes when the data is non-empty
and not whitespace-only, otherwise clears the collected errors and stops
the chain with `msg`. -/
def dataRequired (msg : String) (value : String) : RuleOutcome :=
  if pyStrip value = "" then .stopClear msg else .pass_

/-- wtforms `Length(min=minL, max=maxL, message=msg)` (with `-1` meaning no
bound, the library default): fails when the character count is below
`minL` or above a non-`-1` `maxL`. -/
def lengthRule (minL maxL : Int) (msg : String) (value : String) :
    RuleOutcome :=
  if (value.data.length : Int) < minL
      || (maxL != -1 && (value.data.length : Int) > maxL) then
    .fail msg
  else .pass_

/-- Modelled from the spec: the `Email` validator's implementation lives in
the external wtforms/email_validator packages, not in this repository; the
spec asks only for a standard email well-formedness check
(`validEmailFormat`), embedded here as: exactly one `@`, non-empty local
part, and a domain that contains an inner dot and no spaces. -/
def validEmailFormat (value : String) : Bool :=
  match value.data.splitOn '@' with
  | [l, d] =>
    !l.isEmpty && !d.isEmpty && d.contains '.' && !l.contains ' '
      && !d.contains ' ' && d.head? != some '.' && d.getLast? != some '.'
  | _ => false

/-- wtforms `Email(message=msg)` over the spec-modelled well-formedness
check. -/
def emailRule (msg : String) (value : String) : RuleOutcome :=
  if validEmailFormat value then .pass_ else .fail msg

/-- The WTForms chain runner (`Field.validate` together with
`_run_validation_chain`): collected errors `errs`, then each validator in
order; `fail` appends and continues, `stopClear` resets the collected
errors to the stop message and halts. -/
def runChain (value : String) :
    List (String → RuleOutcome) → List String → List String
  | [], errs => errs
  | r :: rs, errs =>
    match r value with
    | .pass_ => runChain value rs errs
    | .fail m => runChain value rs (errs ++ [m])
    | .stopClear m => [m]

/-- `LoginForm.username` validator chain (src/app.py:55-61). -/
def usernameChain : List (String → RuleOutcome) :=
  [dataRequired "Username is required",
   lengthRule 3 80 "Username must be 3-80 characters",
   validate_no_sql_injection,
   validate_no_xss]

/-- `LoginForm.password` validator chain (src/app.py:62-66); `Length` has
no `max`. -/
def passwordChain : List (String → RuleOutcome) :=
  [dataRequired "Password is required",
   lengthRule 6 (-1) "Password must be at least 6 characters"]

/-- `ContactForm.name` validator chain (src/app.py:69-75). -/
def nameChain : List (String → RuleOutcome) :=
  [dataRequired "Name is required",
   lengthRule 2 100 "Name must be 2-100 characters",
   validate_no_sql_injection,
   validate_no_xss]

/-- `ContactForm.email` validator chain (src/app.py:76-81). -/
def emailChain : List (String → RuleOutcome) :=
  [dataRequired "Email is required",
   emailRule "Invalid email address",
   validate_no_sql_injection]

/-- `ContactForm.phone` validator chain (src/app.py:82-87). -/
def phoneChain : List (String → RuleOutcome) :=
  [dataRequired "Phone is required",
   validate_phone,
   validate_no_sql_injection]

/-- `ContactForm.message` validator chain (src/app.py:88-94). -/
def messageChain : List (String → RuleOutcome) :=
  [dataRequired "Message is required",
   lengthRule 10 1000 "Message must be 10-1000 characters",
   validate_no_sql_injection,
   validate_no_xss]

/-- Error list of the `username` field for a submitted value. -/
def usernameErrors (v : String) : List String := runChain v usernameChain []

/-- Error list of the `password` field for a submitted value. -/
def passwordErrors (v : String) : List String := runChain v passwordChain []

/-- Error list of the `name` field for a submitted value. -/
def nameErrors (v : String) : List String := runChain v nameChain []

/-- Error list of the `email` field for a submitted value. -/
def emailErrors (v : String) : List String := runChain v emailChain []

/-- Error list of the `phone` field for a submitted value. -/
def phoneErrors (v : String) : List String := runChain v phoneChain []

/-- Error list of the `message` field for a submitted value. -/
def messageErrors (v : String) : List String := runChain v messageChain []

/-- The raw field values of a `LoginForm` submission. -/
structure LoginFields where
  username : String
  password : String
deriving DecidableEq, Repr

/-- The raw field values of a `ContactForm` submission. -/
structure ContactFields where
  name : String
  email : String
  phone : String
  message : String
deriving DecidableEq, Repr

/-- `LoginForm().validate()`: every field's error list is empty. -/
def loginFormValid (f : LoginFields) : Bool :=
  (usernameErrors f.username).isEmpty && (passwordErrors f.password).isEmpty

/-- `ContactForm().validate()`: every field's error list is empty. -/
def contactFormValid (f : ContactFields) : Bool :=
  (nameErrors f.name).isEmpty && (emailErrors f.email).isEmpty
    && (phoneErrors f.phone).isEmpty && (messageErrors f.message).isEmpty

/-! ## Data model and application state (src/app.py:96-111, Flask session) -/

/-- A `User` row (src/app.py:97-102); `password` is the stored hash
string. -/
structure User where
  id : Nat
  username : String
  password : String
deriving DecidableEq, Repr

/-- A `Contact` row (src/app.py:104-111). -/
structure Contact where
  user_id : Nat
  name : String
  email : String
  phone : String
  message : String
deriving DecidableEq, Repr

/-- The authenticated identity kept in the Flask session
(`session['user_id']`, `session['username']`, src/app.py:132-133); the
route guard tests `'user_id' in session`, embedded as the `Option` being
`some`. -/
structure SessionData where
  user_id : Nat
  username : String
deriving DecidableEq, Repr

/-- The explicit state threaded through the handlers: the user table, the
request's session, and the contact table. -/
structure AppState where
  users : List User
  session : Option SessionData
  contacts : List Contact
deriving DecidableEq, Repr

/-- Render / redirect targets of the two pages. -/
inductive Page where
  | loginPage : Page
  | contactPage : Page
deriving DecidableEq, Repr

/-- The observable HTTP response of a handler: the flashed
`(message, category)` pairs of this request, and either a redirect target
or a rendered template. -/
structure Response where
  flashes : List (String × String)
  redirectTo : Option Page
  rendered : Option Page
deriving DecidableEq, Repr

/-- `User.query.filter_by(username=u).first()` (src/app.py:128): the first
user row whose `username` equals `u`. -/
def findUserByUsername (users : List User) (u : String) : Option User :=
  users.find? (fun x => x.username == u)

/-- Whether a stored hash string has the shape of a bcrypt hash
(`$2…$` prefix, 60 characters). -/
def isBcryptFormat (h : String) : Bool :=
  decide (h.data.take 2 = ['$', '2']) && h.data.length == 60

/-- Modelled from the flask_bcrypt and bcrypt libraries (dependency code,
not part of this repository): `check_password_hash(pw_hash, password)`
calls `bcrypt.hashpw(password, pw_hash)`, which raises
`ValueError('Invalid salt')` whenever `pw_hash` is not a well-formed
bcrypt hash, and otherwise compares the recomputed digest with the stored
one; the cryptographic comparison on well-formed hashes is abstracted as
the parameter `matchFn`. -/
def check_password_hash (matchFn : String → String → Bool)
    (pw_hash password : String) : Except String Bool :=
  if isBcryptFormat pw_hash then .ok (matchFn pw_hash password)
  else .error "Invalid salt"

/-! ## Route handlers (src/app.py:119-177)

Each handler takes the request's form data as `Option` (`none` for a GET
or a non-submitting request, on which `validate_on_submit` is false) and
returns the response together with the successor state.  The bcrypt
comparison enters `login` as the parameter `check`; a raised Python
exception is the `Except.error` case of the result.  The persistence
commit outcome enters `contact` as the parameter `commitOk`. -/

/-- Embedding of the `login` handler (src/app.py:119-141). -/
def login (check : String → String → Except String Bool) (st : AppState)
    (form : Option LoginFields) : Except String (Response × AppState) :=
  match form with
  | none => .ok ({ flashes := [], redirectTo := none,
                   rendered := some .loginPage }, st)
  | some f =>
    if loginFormValid f then
      let username := pyStrip f.username
      let password := f.password
      match findUserByUsername st.users username with
      | some user =>
        match check user.password password with
        | .error e => .error e
        | .ok true =>
          .ok ({ flashes := [("Login successful", "success")],
                 redirectTo := some .contactPage, rendered := none },
               { st with session := some ⟨user.id, user.username⟩ })
        | .ok false =>
          .ok ({ flashes := [("Invalid credentials", "error")],
                 redirectTo := some .loginPage, rendered := none }, st)
      | none =>
        .ok ({ flashes := [("Invalid credentials", "error")],
               redirectTo := some .loginPage, rendered := none }, st)
    else
      .ok ({ flashes := [], redirectTo := none,
             rendered := some .loginPage }, st)

/-- Embedding of the `contact` handler (src/app.py:143-171); `commitOk`
is the outcome of the external `db.session.commit()` (`false`: the commit
raises, the handler rolls back). -/
def contact (st : AppState) (form : Option ContactFields)
    (commitOk : Bool) : Response × AppState :=
  match st.session with
  | none =>
    ({ flashes := [("Please login first", "error")],
       redirectTo := some .loginPage, rendered := none }, st)
  | some sess =>
    match form with
    | none =>
      ({ flashes := [], redirectTo := none,
         rendered := some .contactPage }, st)
    | some f =>
      if contactFormValid f then
        let new_contact : Contact :=
          ⟨sess.user_id, pyStrip f.name, pyStrip f.email,
           pyStrip f.phone, pyStrip f.message⟩
        if commitOk then
          ({ flashes := [("Contact message submitted successfully",
                          "success")],
             redirectTo := some .contactPage, rendered := none },
           { st with contacts := st.contacts ++ [new_contact] })
        else
          ({ flashes := [("An error occurred. Please try again", "error")],
             redirectTo := some .contactPage, rendered := none }, st)
      else
        ({ flashes := [], redirectTo := none,
           rendered := some .contactPage }, st)

/-- Embedding of the `logout` handler (src/app.py:173-177). -/
def logout (st : AppState) : Response × AppState :=
  ({ flashes := [("You have been logged out", "success")],
     redirectTo := some .loginPage, rendered := none },
   { st with session := none })

/-! ## Session lifetime (src/app.py:20, src/app.py:134)

src/app.py sets `PERMANENT_SESSION_LIFETIME = 3600` and marks the session
permanent at login.  The expiry mechanics live in Flask's
`SecureCookieSessionInterface` (library code, not in this repository):
`open_session` rejects a session cookie whose signing timestamp is older
than the lifetime (the timed serializer's `max_age`), and `save_session`
re-issues the cookie, signed at the current time, on every response to a
request carrying a permanent session, because `SESSION_REFRESH_EACH_REQUEST`
defaults to `True`.  Time is modelled as a `Nat` of seconds. -/

/-- `app.config['PERMANENT_SESSION_LIFETIME']` (src/app.py:20). -/
def PERMANENT_SESSION_LIFETIME : Nat := 3600

/-- A signed permanent-session cookie: the bound identity together with
the time at which the cookie was (re-)signed. -/
structure SessionCookie where
  user_id : Nat
  username : String
  issuedAt : Nat
deriving DecidableEq, Repr

/-- Modelled from Flask's `SecureCookieSessionInterface.open_session`
(library code): a cookie is accepted only while its signature is at most
`PERMANENT_SESSION_LIFETIME` seconds old. -/
def open_session (now : Nat) (c : Option SessionCookie) :
    Option SessionCookie :=
  match c with
  | some ck =>
    if now - ck.issuedAt ≤ PERMANENT_SESSION_LIFETIME then some ck else none
  | none => none

/-- The identity the session binds at time `now`, if any
(the spec's `currentUser`). -/
def currentUser (now : Nat) (c : Option SessionCookie) :
    Option (Nat × String) :=
  (open_session now c).map (fun ck => (ck.user_id, ck.username))

/-- Modelled from Flask's `SecureCookieSessionInterface.save_session`
(library code): a request at time `now` carrying a still-valid permanent
session has its cookie re-issued, signed at `now`
(`SESSION_REFRESH_EACH_REQUEST` defaults to `True`). -/
def touch (now : Nat) (c : Option SessionCookie) : Option SessionCookie :=
  (open_session now c).map (fun ck => { ck with issuedAt := now })

/-- The token `k` occurs in `s` flanked by regex word boundaries: a
decomposition `s = u ++ k ++ v` whose two seams are both word
boundaries. -/
def wholeTokenOccurs (k s : List Char) : Prop :=
  ∃ u v, s = u ++ k ++ v ∧ (lastWc u != headWc (k ++ v)) = true
    ∧ (lastWc (u ++ k) != headWc v) = true

/-- The contribution a single validator makes to a field's error list when
evaluated on its own: nothing on pass, its message on failure.  (Only used
to state accumulation for rules that never raise the chain-stopping
`StopValidation`.) -/
def failMsgs (r : String → RuleOutcome) (v : String) : List String :=
  match r v with
  | .pass_ => []
  | .fail m => [m]
  | .stopClear m => [m]

/-- Ordered concatenation of each rule's independent failure messages. -/
def chainFailures (v : String) :
    List (String → RuleOutcome) → List String
  | [] => []
  | r :: rs => failMsgs r v ++ chainFailures v rs

/-! ## Word-boundary matching: characterization lemmas -/

/-- A word boundary sits at the seam of `a ++ b` exactly when the word-ness
of the last character of `a` differs from the word-ness of the first
character of `b`. -/
theorem boundary_append (a b : List Char) :
    boundaryAt (a ++ b) a.length = (lastWc a != headWc b) := by
  rcases a.eq_nil_or_concat with rfl | ⟨xs, x, rfl⟩
  · simp [boundaryAt, wcAt, lastWc]
  · have h3 : (xs.concat x).length = xs.length + 1 := by simp
    have h1 : (xs.concat x ++ b).drop xs.length = x :: b := by
      rw [List.concat_eq_append, List.append_assoc, List.drop_left]
      rfl
    have h2 : (xs.concat x ++ b).drop (xs.length + 1) = b := by
      rw [List.concat_eq_append, show xs.length + 1 = (xs ++ [x]).length by
        simp, List.drop_left]
    rw [h3]
    unfold boundaryAt wcAt
    rw [Nat.add_sub_cancel, h1, h2]
    simp [headWc, lastWc, List.concat_eq_append, List.getLast?_concat]

/-- `boundary_append` with the seam index given as a hypothesis. -/
theorem boundary_append' (a b : List Char) {i : Nat} (h : a.length = i) :
    boundaryAt (a ++ b) i = (lastWc a != headWc b) :=
  h ▸ boundary_append a b

/-- The index-based `re.search` embedding finds `\b k \b` in `s` exactly
when `k` occurs in `s` with a word boundary on each side. -/
theorem bSearch_iff (s k : List Char) :
    bSearch s k = true ↔ wholeTokenOccurs k s := by
  constructor
  · intro h
    rw [bSearch, List.any_eq_true] at h
    obtain ⟨i, hi, hm⟩ := h
    rw [List.mem_range, Nat.lt_succ_iff] at hi
    simp only [bMatchAt, Bool.and_eq_true, decide_eq_true_eq] at hm
    obtain ⟨⟨htk, hb1⟩, hb2⟩ := hm
    have hlen : i + k.length ≤ s.length := by
      have h1 := congrArg List.length htk
      rw [List.length_take, List.length_drop] at h1
      have h2 : k.length ≤ s.length - i := min_eq_left_iff.mp h1
      omega
    have hu : (s.take i).length = i := by
      rw [List.length_take]; exact min_eq_left hi
    have hs : s = s.take i ++ (k ++ s.drop (i + k.length)) := by
      conv_lhs => rw [← List.take_append_drop i s]
      congr 1
      conv_lhs => rw [← List.take_append_drop k.length (s.drop i)]
      rw [htk, List.drop_drop]
    refine ⟨s.take i, s.drop (i + k.length), ?_, ?_, ?_⟩
    · rw [List.append_assoc]; exact hs
    · rw [hs, boundary_append' _ _ hu] at hb1
      exact hb1
    · rw [hs, ← List.append_assoc] at hb2
      have hl : (s.take i ++ k).length = i + k.length := by
        rw [List.length_append, hu]
      rw [boundary_append' _ _ hl] at hb2
      exact hb2
  · rintro ⟨u, v, rfl, hb1, hb2⟩
    rw [bSearch, List.any_eq_true]
    refine ⟨u.length, ?_, ?_⟩
    · rw [List.mem_range, Nat.lt_succ_iff]
      simp [List.length_append]
    · simp only [bMatchAt, Bool.and_eq_true, decide_eq_true_eq]
      refine ⟨⟨?_, ?_⟩, ?_⟩
      · rw [List.append_assoc, List.drop_left, List.take_left]
      · rw [List.append_assoc, boundary_append' _ _ rfl]
        exact hb1
      · rw [boundary_append' (u ++ k) v (by rw [List.length_append])]
        exact hb2

/-- `validate_no_sql_injection` fires exactly when some blacklisted keyword
occurs boundary-flanked in the uppercased value. -/
theorem sqlInjectionHit_iff (s : String) :
    sqlInjectionHit s = true ↔
      ∃ k ∈ sql_keywords, wholeTokenOccurs k.data (pyUpper s).data := by
  rw [sqlInjectionHit, List.any_eq_true]
  constructor
  · rintro ⟨k, hk, h⟩
    exact ⟨k, hk, (bSearch_iff _ _).mp h⟩
  · rintro ⟨k, hk, h⟩
    exact ⟨k, hk, (bSearch_iff _ _).mpr h⟩

/-! ## Handler lemmas -/

/-- A validated submission whose username matches no user row reaches the
`else` branch of src/app.py:130-139. -/
theorem login_unknown_user (check : String → String → Except String Bool)
    (st : AppState) (f : LoginFields)
    (hv : loginFormValid f = true)
    (hf : findUserByUsername st.users (pyStrip f.username) = none) :
    login check st (some f) =
      .ok ({ flashes := [("Invalid credentials", "error")],
             redirectTo := some .loginPage, rendered := none }, st) := by
  simp only [login, hv, if_true, hf]

/-- A validated submission whose username matches a user row but whose
password fails verification reaches the same `else` branch. -/
theorem login_wrong_password (check : String → String → Except String Bool)
    (st : AppState) (f : LoginFields) (u : User)
    (hv : loginFormValid f = true)
    (hf : findUserByUsername st.users (pyStrip f.username) = some u)
    (hc : check u.password f.password = .ok false) :
    login check st (some f) =
      .ok ({ flashes := [("Invalid credentials", "error")],
             redirectTo := some .loginPage, rendered := none }, st) := by
  simp only [login, hv, if_true, hf, hc]

/-- A submission failing field validation re-renders the login page
(src/app.py:141) and leaves the state alone. -/
theorem login_invalid_form (check : String → String → Except String Bool)
    (st : AppState) (f : LoginFields)
    (hv : loginFormValid f = false) :
    login check st (some f) =
      .ok ({ flashes := [], redirectTo := none,
             rendered := some .loginPage }, st) := by
  simp only [login, hv, Bool.false_eq_true, if_false]

/-- A raised verification error propagates out of `login` uncaught
(src/app.py:130 has no exception handler). -/
theorem login_check_error (check : String → String → Except String Bool)
    (st : AppState) (f : LoginFields) (u : User) (e : String)
    (hv : loginFormValid f = true)
    (hf : findUserByUsername st.users (pyStrip f.username) = some u)
    (hc : check u.password f.password = .error e) :
    login check st (some f) = .error e := by
  simp only [login, hv, if_true, hf, hc]

/-- A validated submission matching a user row whose hash verifies takes
the success branch (src/app.py:130-136): session cleared and rewritten to
the row's identity, success flash, redirect to the contact page. -/
theorem login_success (check : String → String → Except String Bool)
    (st : AppState) (f : LoginFields) (u : User)
    (hv : loginFormValid f = true)
    (hf : findUserByUsername st.users (pyStrip f.username) = some u)
    (hc : check u.password f.password = .ok true) :
    login check st (some f) =
      .ok ({ flashes := [("Login successful", "success")],
             redirectTo := some .contactPage, rendered := none },
           { st with session := some ⟨u.id, u.username⟩ }) := by
  simp only [login, hv, if_true, hf, hc]

/-- Anatomy of a successful login: whenever `login` answers with the
redirect to the contact page, field validation passed, the trimmed
username matched a user row, that row's hash verified against the raw
password, and the session was rewritten to that row's identity. -/
theorem login_success_elim (check : String → String → Except String Bool)
    (st : AppState) (f : LoginFields) (r : Response) (st' : AppState)
    (h : login check st (some f) = .ok (r, st'))
    (hr : r.redirectTo = some Page.contactPage) :
    loginFormValid f = true ∧
      ∃ u, findUserByUsername st.users (pyStrip f.username) = some u ∧
        check u.password f.password = .ok true ∧
        st' = { st with session := some ⟨u.id, u.username⟩ } ∧
        r = { flashes := [("Login successful", "success")],
              redirectTo := some .contactPage, rendered := none } := by
  cases hv : loginFormValid f with
  | false =>
    rw [login_invalid_form check st f hv] at h
    injection h with h2
    injection h2 with ha hb
    rw [← ha] at hr
    simp at hr
  | true =>
    cases hfind : findUserByUsername st.users (pyStrip f.username) with
    | none =>
      rw [login_unknown_user check st f hv hfind] at h
      injection h with h2
      injection h2 with ha hb
      rw [← ha] at hr
      simp at hr
    | some u =>
      cases hc : check u.password f.password with
      | error e =>
        rw [login_check_error check st f u e hv hfind hc] at h
        simp at h
      | ok b =>
        cases b with
        | false =>
          rw [login_wrong_password check st f u hv hfind hc] at h
          injection h with h2
          injection h2 with ha hb
          rw [← ha] at hr
          simp at hr
        | true =>
          rw [login_success check st f u hv hfind hc] at h
          injection h with h2
          injection h2 with ha hb
          exact ⟨rfl, u, rfl, hc, hb.symm, ha.symm⟩

/-- A validated, authenticated contact submission whose commit succeeds
appends exactly one row, built from the stripped field values and the
session's `user_id` (src/app.py:151-165). -/
theorem contact_commit (st : AppState) (sd : SessionData)
    (f : ContactFields) (hs : st.session = some sd)
    (hv : contactFormValid f = true) :
    contact st (some f) true =
      ({ flashes := [("Contact message submitted successfully", "success")],
         redirectTo := some .contactPage, rendered := none },
       { st with contacts := st.contacts ++
          [⟨sd.user_id, pyStrip f.name, pyStrip f.email,
            pyStrip f.phone, pyStrip f.message⟩] }) := by
  simp only [contact, hs, hv, if_true]

/-- Projection of `pyLower` to character lists. -/
theorem pyLower_data (s : String) :
    (pyLower s).data = s.data.map Char.toLower := rfl

/-- The row returned by the username query is a member of the user table
and carries exactly the queried username. -/
theorem findUserByUsername_some {users : List User} {name : String}
    {u : User} (h : findUserByUsername users name = some u) :
    u ∈ users ∧ u.username = name := by
  rw [findUserByUsername] at h
  refine ⟨List.mem_of_find?_eq_some h, ?_⟩
  have hb := List.find?_some h
  exact eq_of_beq hb

/-- Reducing one passing rule off the front of a chain. -/
theorem runChain_cons_pass (v : String) (r : String → RuleOutcome)
    (rs : List (String → RuleOutcome)) (errs : List String)
    (h : r v = .pass_) :
    runChain v (r :: rs) errs = runChain v rs errs := by
  simp only [runChain, h]

/-- The chain runner on stop-free rules evaluates every rule and appends
every failure, in chain order — no short-circuiting after a failure. -/
theorem runChain_no_stop (v : String) (rs : List (String → RuleOutcome))
    (h : ∀ r ∈ rs, ∀ m, r v ≠ .stopClear m) (errs : List String) :
    runChain v rs errs = errs ++ chainFailures v rs := by
  induction rs generalizing errs with
  | nil => simp [runChain, chainFailures]
  | cons r rest ih =>
    have hrest : ∀ r' ∈ rest, ∀ m, r' v ≠ .stopClear m :=
      fun r' hm m => h r' (List.mem_cons_of_mem r hm) m
    cases hc : r v with
    | pass_ =>
      simp only [runChain, hc, chainFailures, failMsgs, ih hrest,
        List.nil_append]
    | fail m =>
      simp only [runChain, hc, chainFailures, failMsgs, ih hrest,
        List.append_assoc, List.singleton_append, List.cons_append,
        List.nil_append]
    | stopClear m =>
      exact absurd hc (h r (List.mem_cons_self r rest) m)

/-- `Length` never raises the chain-stopping failure. -/
theorem lengthRule_no_stop (minL maxL : Int) (msg value m : String) :
    lengthRule minL maxL msg value ≠ .stopClear m := by
  rw [lengthRule]; split <;> simp

/-- The SQL blacklist validator never raises the chain-stopping
failure. -/
theorem validate_no_sql_injection_no_stop (value m : String) :
    validate_no_sql_injection value ≠ .stopClear m := by
  rw [validate_no_sql_injection]; split <;> simp

/-- The markup blacklist validator never raises the chain-stopping
failure. -/
theorem validate_no_xss_no_stop (value m : String) :
    validate_no_xss value ≠ .stopClear m := by
  rw [validate_no_xss]; split <;> simp

/-- `Email` never raises the chain-stopping failure. -/
theorem emailRule_no_stop (msg value m : String) :
    emailRule msg value ≠ .stopClear m := by
  rw [emailRule]; split <;> simp

/-- The phone validator never raises the chain-stopping failure. -/
theorem validate_phone_no_stop (value m : String) :
    validate_phone value ≠ .stopClear m := by
  rw [validate_phone]; split <;> simp

/-- On a value passing the required check, the `username` chain collects
the independent failures of all remaining rules, in order. -/
theorem usernameErrors_accumulate (v : String) (hv : pyStrip v ≠ "") :
    usernameErrors v =
      failMsgs (lengthRule 3 80 "Username must be 3-80 characters") v
        ++ failMsgs validate_no_sql_injection v
        ++ failMsgs validate_no_xss v := by
  have hdr : dataRequired "Username is required" v = .pass_ := by
    rw [dataRequired, if_neg hv]
  have hns : ∀ r ∈ [lengthRule 3 80 "Username must be 3-80 characters",
      validate_no_sql_injection, validate_no_xss],
      ∀ m, r v ≠ RuleOutcome.stopClear m := by
    intro r hr m
    simp only [List.mem_cons, List.not_mem_nil, or_false] at hr
    rcases hr with rfl | rfl | rfl
    · exact lengthRule_no_stop _ _ _ _ _
    · exact validate_no_sql_injection_no_stop _ _
    · exact validate_no_xss_no_stop _ _
  rw [usernameErrors, usernameChain, runChain_cons_pass v _ _ [] hdr,
    runChain_no_stop v _ hns []]
  simp [chainFailures]

/-- On a value passing the required check, the `password` chain collects
the independent failure of the length rule. -/
theorem passwordErrors_accumulate (v : String) (hv : pyStrip v ≠ "") :
    passwordErrors v =
      failMsgs (lengthRule 6 (-1) "Password must be at least 6 characters")
        v := by
  have hdr : dataRequired "Password is required" v = .pass_ := by
    rw [dataRequired, if_neg hv]
  have hns : ∀ r ∈
      [lengthRule 6 (-1) "Password must be at least 6 characters"],
      ∀ m, r v ≠ RuleOutcome.stopClear m := by
    intro r hr m
    simp only [List.mem_cons, List.not_mem_nil, or_false] at hr
    rcases hr with rfl
    exact lengthRule_no_stop _ _ _ _ _
  rw [passwordErrors, passwordChain, runChain_cons_pass v _ _ [] hdr,
    runChain_no_stop v _ hns []]
  simp [chainFailures]

/-- On a value passing the required check, the `name` chain collects the
independent failures of all remaining rules, in order. -/
theorem nameErrors_accumulate (v : String) (hv : pyStrip v ≠ "") :
    nameErrors v =
      failMsgs (lengthRule 2 100 "Name must be 2-100 characters") v
        ++ failMsgs validate_no_sql_injection v
        ++ failMsgs validate_no_xss v := by
  have hdr : dataRequired "Name is required" v = .pass_ := by
    rw [dataRequired, if_neg hv]
  have hns : ∀ r ∈ [lengthRule 2 100 "Name must be 2-100 characters",
      validate_no_sql_injection, validate_no_xss],
      ∀ m, r v ≠ RuleOutcome.stopClear m := by
    intro r hr m
    simp only [List.mem_cons, List.not_mem_nil, or_false] at hr
    rcases hr with rfl | rfl | rfl
    · exact lengthRule_no_stop _ _ _ _ _
    · exact validate_no_sql_injection_no_stop _ _
    · exact validate_no_xss_no_stop _ _
  rw [nameErrors, nameChain, runChain_cons_pass v _ _ [] hdr,
    runChain_no_stop v _ hns []]
  simp [chainFailures]

/-- On a value passing the required check, the `email` chain collects the
independent failures of all remaining rules, in order. -/
theorem emailErrors_accumulate (v : String) (hv : pyStrip v ≠ "") :
    emailErrors v =
      failMsgs (emailRule "Invalid email address") v
        ++ failMsgs validate_no_sql_injection v := by
  have hdr : dataRequired "Email is required" v = .pass_ := by
    rw [dataRequired, if_neg hv]
  have hns : ∀ r ∈ [emailRule "Invalid email address",
      validate_no_sql_injection],
      ∀ m, r v ≠ RuleOutcome.stopClear m := by
    intro r hr m
    simp only [List.mem_cons, List.not_mem_nil, or_false] at hr
    rcases hr with rfl | rfl
    · exact emailRule_no_stop _ _ _
    · exact validate_no_sql_injection_no_stop _ _
  rw [emailErrors, emailChain, runChain_cons_pass v _ _ [] hdr,
    runChain_no_stop v _ hns []]
  simp [chainFailures]

/-- On a value passing the required check, the `phone` chain collects the
independent failures of all remaining rules, in order. -/
theorem phoneErrors_accumulate (v : String) (hv : pyStrip v ≠ "") :
    phoneErrors v =
      failMsgs validate_phone v
        ++ failMsgs validate_no_sql_injection v := by
  have hdr : dataRequired "Phone is required" v = .pass_ := by
    rw [dataRequired, if_neg hv]
  have hns : ∀ r ∈ [validate_phone, validate_no_sql_injection],
      ∀ m, r v ≠ RuleOutcome.stopClear m := by
    intro r hr m
    simp only [List.mem_cons, List.not_mem_nil, or_false] at hr
    rcases hr with rfl | rfl
    · exact validate_phone_no_stop _ _
    · exact validate_no_sql_injection_no_stop _ _
  rw [phoneErrors, phoneChain, runChain_cons_pass v _ _ [] hdr,
    runChain_no_stop v _ hns []]
  simp [chainFailures]

/-- On a value passing the required check, the `message` chain collects
the independent failures of all remaining rules, in order. -/
theorem messageErrors_accumulate (v : String) (hv : pyStrip v ≠ "") :
    messageErrors v =
      failMsgs (lengthRule 10 1000 "Message must be 10-1000 characters") v
        ++ failMsgs validate_no_sql_injection v
        ++ failMsgs validate_no_xss v := by
  have hdr : dataRequired "Message is required" v = .pass_ := by
    rw [dataRequired, if_neg hv]
  have hns : ∀ r ∈ [lengthRule 10 1000 "Message must be 10-1000 characters",
      validate_no_sql_injection, validate_no_xss],
      ∀ m, r v ≠ RuleOutcome.stopClear m := by
    intro r hr m
    simp only [List.mem_cons, List.not_mem_nil, or_false] at hr
    rcases hr with rfl | rfl | rfl
    · exact lengthRule_no_stop _ _ _ _ _
    · exact validate_no_sql_injection_no_stop _ _
    · exact validate_no_xss_no_stop _ _
  rw [messageErrors, messageChain, runChain_cons_pass v _ _ [] hdr,
    runChain_no_stop v _ hns []]
  simp [chainFailures]

/-! ## The claims -/

/-- C1, counterexample: the blacklisted token `;` appears as an exact
sequence in the input `";"`, yet `validate_no_sql_injection` accepts that
input — the `\b`-wrapped pattern finds no word boundary next to a
punctuation character, so the claim that every such input is rejected is
false. -/
theorem C1_counterexample :
    ";" ∈ sql_keywords ∧ (";" : String).data = [';']
      ∧ validate_no_sql_injection ";" = .pass_ := by
  refine ⟨by decide, rfl, by decide⟩

/-- C1 (amended): `validate_no_sql_injection` rejects a value, with message
'Invalid characters or keywords detected', exactly when some blacklisted
token occurs in the uppercased value with a regex word boundary on each
side.  Consequently word-character tokens are caught as whole words and
never inside longer words (e.g. 'Andrew'), while tokens whose edge
characters are non-word (`--`, `;`, `/*`, `*/`) are caught only when
directly flanked by word characters, and the lowercase `xp_`, `sp_`
entries can never match the uppercased value. -/
theorem C1_boundary_characterization (s : String) :
    validate_no_sql_injection s
        = .fail "Invalid characters or keywords detected" ↔
      ∃ k ∈ sql_keywords, wholeTokenOccurs k.data (pyUpper s).data := by
  rw [← sqlInjectionHit_iff, validate_no_sql_injection]
  cases h : sqlInjectionHit s with
  | true => simp
  | false => simp

/-- C2: a /contact request without an authenticated session is rejected
with the 'Please login first' flash and a redirect to the login page and
the state — in particular the contact table — is untouched; after a
successful login the guard passes: the session holds the logged-in user's
identity and a validated submission appends a Contact row carrying that
session's `user_id`. -/
theorem C2_auth_gate :
    (∀ (st : AppState) (form : Option ContactFields) (commitOk : Bool),
        st.session = none →
        contact st form commitOk =
          ({ flashes := [("Please login first", "error")],
             redirectTo := some .loginPage, rendered := none }, st)) ∧
    (∀ (check : String → String → Except String Bool) (st : AppState)
        (f : LoginFields) (r : Response) (st' : AppState),
        login check st (some f) = .ok (r, st') →
        r.redirectTo = some Page.contactPage →
        ∃ u, findUserByUsername st.users (pyStrip f.username) = some u ∧
          st'.session = some ⟨u.id, u.username⟩ ∧
          ∀ cf, contactFormValid cf = true →
            (contact st' (some cf) true).2.contacts =
              st'.contacts ++ [⟨u.id, pyStrip cf.name, pyStrip cf.email,
                pyStrip cf.phone, pyStrip cf.message⟩]) := by
  constructor
  · intro st form commitOk hs
    simp only [contact, hs]
  · intro check st f r st' h hr
    obtain ⟨hv, u, hfind, hc, hst, hresp⟩ :=
      login_success_elim check st f r st' h hr
    refine ⟨u, hfind, by rw [hst], ?_⟩
    intro cf hcf
    rw [contact_commit st' ⟨u.id, u.username⟩ cf (by rw [hst]) hcf]

/-- C2, witness: the guard blocks a valid submission on an empty session,
and a concrete successful login yields a matched user row. -/
theorem C2_auth_gate_witness :
    contact ⟨[], none, []⟩
        (some ⟨"John Doe", "john@example.com", "+1234567890",
               "This is a test message."⟩) true =
      ({ flashes := [("Please login first", "error")],
         redirectTo := some .loginPage, rendered := none },
       ⟨[], none, []⟩) ∧
    ∃ u, findUserByUsername [⟨1, "Ahmed", "h1"⟩] (pyStrip "Ahmed")
        = some u := by
  refine ⟨C2_auth_gate.1 ⟨[], none, []⟩ _ true rfl, ?_⟩
  obtain ⟨u, hu, -, -⟩ := C2_auth_gate.2 (fun _ _ => .ok true)
    ⟨[⟨1, "Ahmed", "h1"⟩], none, []⟩ ⟨"Ahmed", "secret123"⟩ _ _ rfl rfl
  exact ⟨u, hu⟩

/-- C3, counterexample: the login policy accepts the raw username
`" ab "` (length 4 passes the 3-80 length rule) although its trimmed form
`"ab"` — the value actually used downstream — fails validation; so the
values are not trimmed before the rules run. -/
theorem C3_counterexample :
    loginFormValid ⟨" ab ", "secret123"⟩ = true ∧
    pyStrip " ab " = "ab" ∧
    loginFormValid ⟨"ab", "secret123"⟩ = false := by
  refine ⟨by decide, by decide, by decide⟩

/-- C3 (amended): validation rules run on the raw, untrimmed submission;
trimming happens only afterwards, on the values used downstream — a
successful login queried the user store with the trimmed username while
passing the password to verification untrimmed, and a persisted Contact
row holds the trimmed field values. -/
theorem C3_trim_after_validation :
    (∀ (check : String → String → Except String Bool) (st : AppState)
        (f : LoginFields) (r : Response) (st' : AppState),
        login check st (some f) = .ok (r, st') →
        r.redirectTo = some Page.contactPage →
        ∃ u, u ∈ st.users ∧ u.username = pyStrip f.username ∧
          check u.password f.password = .ok true) ∧
    (∀ (st : AppState) (sd : SessionData) (cf : ContactFields),
        st.session = some sd → contactFormValid cf = true →
        (contact st (some cf) true).2.contacts =
          st.contacts ++ [⟨sd.user_id, pyStrip cf.name, pyStrip cf.email,
            pyStrip cf.phone, pyStrip cf.message⟩]) := by
  constructor
  · intro check st f r st' h hr
    obtain ⟨hv, u, hfind, hc, -, -⟩ :=
      login_success_elim check st f r st' h hr
    obtain ⟨hmem, hname⟩ := findUserByUsername_some hfind
    exact ⟨u, hmem, hname, hc⟩
  · intro st sd cf hs hv
    rw [contact_commit st sd cf hs hv]

/-- C3, witness: a concrete login and a concrete persisted row with an
untrimmed name field. -/
theorem C3_trim_after_validation_witness :
    (∃ u, u ∈ ([⟨1, "Ahmed", "h1"⟩] : List User)
        ∧ u.username = pyStrip "Ahmed") ∧
    (contact ⟨[⟨1, "Ahmed", "h1"⟩], some ⟨1, "Ahmed"⟩, []⟩
        (some ⟨" John ", "john@example.com", "+1234567890",
               "This is a test message."⟩) true).2.contacts =
      [] ++ [⟨1, pyStrip " John ", pyStrip "john@example.com",
              pyStrip "+1234567890", pyStrip "This is a test message."⟩] := by
  constructor
  · obtain ⟨u, hu, hname, -⟩ := C3_trim_after_validation.1
      (fun _ _ => .ok true) ⟨[⟨1, "Ahmed", "h1"⟩], none, []⟩
      ⟨"Ahmed", "secret123"⟩ _ _ rfl rfl
    exact ⟨u, hu, hname⟩
  · exact C3_trim_after_validation.2
      ⟨[⟨1, "Ahmed", "h1"⟩], some ⟨1, "Ahmed"⟩, []⟩ ⟨1, "Ahmed"⟩
      ⟨" John ", "john@example.com", "+1234567890",
       "This is a test message."⟩ rfl (by decide)

/-- C4: evaluating the embedded code at the failing input — a user row
whose stored hash is the malformed string `"nothash"` — a login attempt
with matching username propagates bcrypt's `Invalid salt` error out of
`login` uncaught, instead of failing closed into the generic
'Invalid credentials' response that the claim (and spec §4.3) require. -/
theorem C4_malformed_hash_raises :
    login (check_password_hash (fun _ _ => false))
        ⟨[⟨1, "Ahmed", "nothash"⟩], none, []⟩ (some ⟨"Ahmed", "secret123"⟩)
      = .error "Invalid salt" := by
  rfl

/-- C5: `validate_no_xss` rejects a value exactly when some substring of
it lowercases to one of the blacklisted markup fragments — i.e. exactly
when a blacklisted fragment occurs case-insensitively; values containing
none of them pass. -/
theorem C5_xss_characterization (s : String) :
    validate_no_xss s = .fail "Invalid HTML or script content detected" ↔
      ∃ t : List Char, t <:+: s.data ∧
        ∃ d ∈ dangerous_chars, t.map Char.toLower = d.data := by
  have hhit : xssHit s = true ↔
      ∃ t : List Char, t <:+: s.data ∧
        ∃ d ∈ dangerous_chars, t.map Char.toLower = d.data := by
    rw [xssHit, List.any_eq_true]
    constructor
    · rintro ⟨d, hd, hinf⟩
      rw [decide_eq_true_eq, pyLower_data] at hinf
      obtain ⟨u, v, huv⟩ := hinf
      obtain ⟨l₁, l₂, hsd, hm1, hm2⟩ := List.map_eq_append_iff.mp huv.symm
      obtain ⟨a, t, hl₁, hma, hmt⟩ := List.map_eq_append_iff.mp hm1
      exact ⟨t, ⟨a, l₂, by rw [← hl₁]; exact hsd.symm⟩, d, hd, hmt⟩
    · rintro ⟨t, htinf, d, hd, hmt⟩
      refine ⟨d, hd, ?_⟩
      rw [decide_eq_true_eq, pyLower_data, ← hmt]
      exact htinf.map Char.toLower
  rw [← hhit, validate_no_xss]
  cases h : xssHit s with
  | true => simp
  | false => simp

/-- C6: two validated failed logins — one with a username matching no user
row, the other matching a row whose password verification answers false —
produce literally the same response: the generic 'Invalid credentials'
flash and the redirect to the login page, with the state unchanged. -/
theorem C6_failure_indistinguishable
    (check : String → String → Except String Bool) (st : AppState)
    (f1 f2 : LoginFields) (u : User)
    (hv1 : loginFormValid f1 = true) (hv2 : loginFormValid f2 = true)
    (h1 : findUserByUsername st.users (pyStrip f1.username) = none)
    (h2 : findUserByUsername st.users (pyStrip f2.username) = some u)
    (hc : check u.password f2.password = .ok false) :
    login check st (some f1) = login check st (some f2) ∧
    login check st (some f1) =
      .ok ({ flashes := [("Invalid credentials", "error")],
             redirectTo := some .loginPage, rendered := none }, st) := by
  have e1 := login_unknown_user check st f1 hv1 h1
  have e2 := login_wrong_password check st f2 u hv2 h2 hc
  exact ⟨by rw [e1, e2], e1⟩

/-- C6, witness: an unknown username and a known-username/wrong-password
attempt against the same store give the same response. -/
theorem C6_failure_indistinguishable_witness :
    login (fun _ _ => .ok false) ⟨[⟨1, "Ahmed", "h1"⟩], none, []⟩
        (some ⟨"Bob99", "anything9"⟩) =
      login (fun _ _ => .ok false) ⟨[⟨1, "Ahmed", "h1"⟩], none, []⟩
        (some ⟨"Ahmed", "wrongpass"⟩) :=
  (C6_failure_indistinguishable (fun _ _ => .ok false)
    ⟨[⟨1, "Ahmed", "h1"⟩], none, []⟩ ⟨"Bob99", "anything9"⟩
    ⟨"Ahmed", "wrongpass"⟩ ⟨1, "Ahmed", "h1"⟩
    (by decide) (by decide) (by decide) (by decide) rfl).1

/-- C7, counterexample: on the empty username the required check fails
and the chain stops — the field carries only 'Username is required',
although the length rule, which the claim says still runs, does fail on
the empty value; so failures after a failed required check are not
collected. -/
theorem C7_counterexample :
    usernameErrors "" = ["Username is required"] ∧
    lengthRule 3 80 "Username must be 3-80 characters" ""
      = .fail "Username must be 3-80 characters" := by
  exact ⟨rfl, rfl⟩

/-- C7 (amended): for every field and every submitted value that passes
the required check, all remaining rules are evaluated and the field's
error list is exactly the ordered concatenation of each rule's
independent failure — no short-circuiting after a failure and no
reordering, so one field can carry several messages from a single pass
(e.g. 'OR': length failure then blacklist failure); but a failing
value-required check clears the collected messages and stops the field's
chain, leaving exactly the single required-message. -/
theorem C7_error_accumulation :
    (∀ v, pyStrip v = "" →
        usernameErrors v = ["Username is required"] ∧
        passwordErrors v = ["Password is required"] ∧
        nameErrors v = ["Name is required"] ∧
        emailErrors v = ["Email is required"] ∧
        phoneErrors v = ["Phone is required"] ∧
        messageErrors v = ["Message is required"]) ∧
    (∀ v, pyStrip v ≠ "" →
        usernameErrors v =
          failMsgs (lengthRule 3 80 "Username must be 3-80 characters") v
            ++ failMsgs validate_no_sql_injection v
            ++ failMsgs validate_no_xss v ∧
        passwordErrors v =
          failMsgs (lengthRule 6 (-1)
            "Password must be at least 6 characters") v ∧
        nameErrors v =
          failMsgs (lengthRule 2 100 "Name must be 2-100 characters") v
            ++ failMsgs validate_no_sql_injection v
            ++ failMsgs validate_no_xss v ∧
        emailErrors v =
          failMsgs (emailRule "Invalid email address") v
            ++ failMsgs validate_no_sql_injection v ∧
        phoneErrors v =
          failMsgs validate_phone v
            ++ failMsgs validate_no_sql_injection v ∧
        messageErrors v =
          failMsgs (lengthRule 10 1000
            "Message must be 10-1000 characters") v
            ++ failMsgs validate_no_sql_injection v
            ++ failMsgs validate_no_xss v) ∧
    usernameErrors "OR" = ["Username must be 3-80 characters",
      "Invalid characters or keywords detected"] := by
  refine ⟨?_, ?_, rfl⟩
  · intro v hv
    have hd : ∀ msg, dataRequired msg v = .stopClear msg := fun msg => by
      rw [dataRequired, if_pos hv]
    refine ⟨?_, ?_, ?_, ?_, ?_, ?_⟩ <;>
      simp [usernameErrors, passwordErrors, nameErrors, emailErrors,
        phoneErrors, messageErrors, usernameChain, passwordChain,
        nameChain, emailChain, phoneChain, messageChain, runChain, hd]
  · intro v hv
    exact ⟨usernameErrors_accumulate v hv, passwordErrors_accumulate v hv,
      nameErrors_accumulate v hv, emailErrors_accumulate v hv,
      phoneErrors_accumulate v hv, messageErrors_accumulate v hv⟩

/-- C7, witness: the whitespace-only username (required check treats it
as missing and stops), and the value 'OR' on which both remaining
username rules contribute their message in order. -/
theorem C7_error_accumulation_witness :
    (pyStrip "   " = "" ∧ usernameErrors "   " = ["Username is required"])
    ∧ (pyStrip "OR" ≠ "" ∧
      usernameErrors "OR" =
        failMsgs (lengthRule 3 80 "Username must be 3-80 characters") "OR"
          ++ failMsgs validate_no_sql_injection "OR"
          ++ failMsgs validate_no_xss "OR") :=
  ⟨⟨rfl, (C7_error_accumulation.1 "   " rfl).1⟩,
   ⟨by decide, (C7_error_accumulation.2.1 "OR" (by decide)).1⟩⟩

/-- C8: when the commit of a validated, authenticated submission fails,
the handler rolls back — the state, in particular the contact table, is
exactly the prior one — and the response carries only the generic retry
flash 'An error occurred. Please try again' and the redirect, no internal
error detail. -/
theorem C8_rollback (st : AppState) (sd : SessionData) (cf : ContactFields)
    (hs : st.session = some sd) (hv : contactFormValid cf = true) :
    contact st (some cf) false =
      ({ flashes := [("An error occurred. Please try again", "error")],
         redirectTo := some .contactPage, rendered := none }, st) := by
  simp only [contact, hs, hv, if_true, Bool.false_eq_true, if_false]

/-- C8, witness: a concrete failed commit leaves the contact table
empty. -/
theorem C8_rollback_witness :
    contact ⟨[⟨1, "Ahmed", "h1"⟩], some ⟨1, "Ahmed"⟩, []⟩
        (some ⟨"John Doe", "john@example.com", "+1234567890",
               "This is a test message."⟩) false =
      ({ flashes := [("An error occurred. Please try again", "error")],
         redirectTo := some .contactPage, rendered := none },
       ⟨[⟨1, "Ahmed", "h1"⟩], some ⟨1, "Ahmed"⟩, []⟩) :=
  C8_rollback ⟨[⟨1, "Ahmed", "h1"⟩], some ⟨1, "Ahmed"⟩, []⟩ ⟨1, "Ahmed"⟩
    ⟨"John Doe", "john@example.com", "+1234567890",
     "This is a test message."⟩ rfl (by decide)

/-- C9, counterexample: a session cookie signed at time 0 and refreshed by
a request at time 3000 is still accepted at time 6000, beyond the claimed
absolute expiry at 0 + 3600 — intervening activity does extend the
session's life. -/
theorem C9_counterexample :
    touch 3000 (some ⟨1, "Ahmed", 0⟩) = some ⟨1, "Ahmed", 3000⟩ ∧
    currentUser 6000 (some ⟨1, "Ahmed", 3000⟩) = some (1, "Ahmed") ∧
    PERMANENT_SESSION_LIFETIME < 6000 := by
  refine ⟨by decide, by decide, by decide⟩

/-- C9 (amended): the lifetime is a sliding 3600-second window, not an
absolute one — a cookie is rejected once it is more than
`PERMANENT_SESSION_LIFETIME` seconds old, but every request carrying a
still-valid permanent session re-issues it signed at the current time, so
only 3600 seconds without any request end the session. -/
theorem C9_sliding_expiry :
    (∀ (ck : SessionCookie) (now : Nat),
        ck.issuedAt + PERMANENT_SESSION_LIFETIME < now →
        currentUser now (some ck) = none) ∧
    (∀ (ck : SessionCookie) (now : Nat),
        now ≤ ck.issuedAt + PERMANENT_SESSION_LIFETIME →
        touch now (some ck) = some { ck with issuedAt := now }) := by
  have hl : PERMANENT_SESSION_LIFETIME = 3600 := rfl
  constructor
  · intro ck now h
    rw [currentUser, open_session, if_neg (by omega)]
    rfl
  · intro ck now h
    rw [touch, open_session, if_pos (by omega)]
    rfl

/-- C9, witness: without refresh the cookie dies after 3600 seconds, and
an in-window request refreshes it. -/
theorem C9_sliding_expiry_witness :
    currentUser 4000 (some ⟨1, "Ahmed", 0⟩) = none ∧
    touch 1000 (some ⟨1, "Ahmed", 0⟩) = some ⟨1, "Ahmed", 1000⟩ :=
  ⟨C9_sliding_expiry.1 ⟨1, "Ahmed", 0⟩ 4000 (by decide),
   C9_sliding_expiry.2 ⟨1, "Ahmed", 0⟩ 1000 (by decide)⟩

/-- C10: a validated login whose credentials fail — unknown username, or a
matched row whose verification answers false — returns the generic
response with the state component exactly the prior state: the session is
neither cleared nor rewritten, so an already-authenticated client stays
authenticated as the same user (flash messages are modelled in the
response, not the session). -/
theorem C10_failed_login_preserves_session
    (check : String → String → Except String Bool) (st : AppState)
    (f : LoginFields)
    (hv : loginFormValid f = true)
    (hfail : findUserByUsername st.users (pyStrip f.username) = none ∨
      ∃ u, findUserByUsername st.users (pyStrip f.username) = some u ∧
        check u.password f.password = .ok false) :
    login check st (some f) =
      .ok ({ flashes := [("Invalid credentials", "error")],
             redirectTo := some .loginPage, rendered := none }, st) := by
  rcases hfail with h | ⟨u, h, hc⟩
  · exact login_unknown_user check st f hv h
  · exact login_wrong_password check st f u hv h hc

/-- C10, witness: a failed login by a client already authenticated as
user 1 leaves the session bound to user 1. -/
theorem C10_failed_login_preserves_session_witness :
    login (fun _ _ => .ok false)
        ⟨[⟨1, "Ahmed", "h1"⟩], some ⟨1, "Ahmed"⟩, []⟩
        (some ⟨"Ahmed", "wrongpass"⟩) =
      .ok ({ flashes := [("Invalid credentials", "error")],
             redirectTo := some .loginPage, rendered := none },
           ⟨[⟨1, "Ahmed", "h1"⟩], some ⟨1, "Ahmed"⟩, []⟩) :=
  C10_failed_login_preserves_session (fun _ _ => .ok false)
    ⟨[⟨1, "Ahmed", "h1"⟩], some ⟨1, "Ahmed"⟩, []⟩ ⟨"Ahmed", "wrongpass"⟩
    (by decide) (Or.inr ⟨⟨1, "Ahmed", "h1"⟩, rfl, rfl⟩)

end SSDLab
